import Mathlib

/-!
Shallow embedding of the movie-search Telegram bot (src/bot.py).

Python strings are modelled as lists of characters.  Python floats produced
and compared by the similarity scorer are modelled as exact rationals.
Case-folding is modelled with Char.toLower (ASCII, which covers the titles
and queries the bot handles); Python str.strip removes the ASCII whitespace
characters.  The catalog (the MOVIES_DB dict) is modelled as an association
list in insertion order, matching Python dict semantics.
-/

namespace MVBD

/-- Whitespace characters removed by Python str.strip (ASCII subset). -/
def pyIsSpace (c : Char) : Bool :=
  c == ' ' || c == '\t' || c == '\n' || c == '\r' || c == '\x0b' || c == '\x0c'

/-- Python str.strip: drop whitespace from both ends. -/
def pyStrip (s : List Char) : List Char :=
  ((s.dropWhile pyIsSpace).reverse.dropWhile pyIsSpace).reverse

/-- Python str.lower (ASCII case-folding). -/
def pyLower (s : List Char) : List Char := s.map Char.toLower

/-- Python substring containment: the expression a in b on two strings. -/
def pyIn (needle hay : List Char) : Bool := decide (needle <:+: hay)

/-- Normalization performed inside calculate_similarity: s.lower().strip(). -/
def simNorm (s : List Char) : List Char := pyStrip (pyLower s)

/-- Similarity scorer, from calculate_similarity in src/bot.py (lines 249-261):
lower and strip both inputs; 1.0 on equality; 0.8 when one is a substring of
the other; otherwise the count of characters of s1 present in s2, divided by
the larger of the two lengths. -/
def calculate_similarity (s1 s2 : List Char) : ℚ :=
  let n1 := simNorm s1
  let n2 := simNorm s2
  if n1 = n2 then 1
  else if pyIn n1 n2 || pyIn n2 n1 then 8 / 10
  else ((n1.countP fun c => n2.contains c) : ℚ) / ((max n1.length n2.length : ℕ) : ℚ)

theorem pyIn_eq_true_iff (a b : List Char) : pyIn a b = true ↔ a <:+: b := by
  simp [pyIn]

theorem calculate_similarity_of_eq (a b : List Char) (h : simNorm a = simNorm b) :
    calculate_similarity a b = 1 := by
  simp [calculate_similarity, h]

theorem calculate_similarity_of_substr (a b : List Char) (hne : simNorm a ≠ simNorm b)
    (h : simNorm a <:+: simNorm b ∨ simNorm b <:+: simNorm a) :
    calculate_similarity a b = 8 / 10 := by
  have hcond : (pyIn (simNorm a) (simNorm b) || pyIn (simNorm b) (simNorm a)) = true := by
    rcases h with h | h
    · simp [pyIn_eq_true_iff, h]
    · simp [pyIn_eq_true_iff, h]
  simp [calculate_similarity, hne, hcond]

theorem calculate_similarity_fallback (a b : List Char) (hne : simNorm a ≠ simNorm b)
    (h : ¬(simNorm a <:+: simNorm b ∨ simNorm b <:+: simNorm a)) :
    calculate_similarity a b =
      (((simNorm a).countP fun c => (simNorm b).contains c) : ℚ)
        / ((max (simNorm a).length (simNorm b).length : ℕ) : ℚ) := by
  push_neg at h
  have h1 : pyIn (simNorm a) (simNorm b) = false := by
    simp [pyIn, h.1]
  have h2 : pyIn (simNorm b) (simNorm a) = false := by
    simp [pyIn, h.2]
  simp [calculate_similarity, hne, h1, h2]

/-- C1: the similarity scorer case-folds and trims both inputs, returns 1.0 on
equality of the normalized strings, 0.8 when one contains the other, and
otherwise the count of characters of normalized a occurring anywhere in
normalized b divided by the larger normalized length; the result always lies
in [0,1], and score of any string with itself is 1.0. -/
theorem c1_scorer_spec (a b : List Char) :
    (0 ≤ calculate_similarity a b ∧ calculate_similarity a b ≤ 1)
    ∧ calculate_similarity a a = 1
    ∧ (simNorm a = simNorm b → calculate_similarity a b = 1)
    ∧ (simNorm a ≠ simNorm b → (simNorm a <:+: simNorm b ∨ simNorm b <:+: simNorm a) →
        calculate_similarity a b = 8 / 10)
    ∧ (simNorm a ≠ simNorm b → ¬(simNorm a <:+: simNorm b ∨ simNorm b <:+: simNorm a) →
        calculate_similarity a b =
          (((simNorm a).countP fun c => (simNorm b).contains c) : ℚ)
            / ((max (simNorm a).length (simNorm b).length : ℕ) : ℚ)) := by
  refine ⟨?_, calculate_similarity_of_eq a a rfl, calculate_similarity_of_eq a b,
    calculate_similarity_of_substr a b, calculate_similarity_fallback a b⟩
  by_cases heq : simNorm a = simNorm b
  · rw [calculate_similarity_of_eq a b heq]
    norm_num
  · by_cases hinf : simNorm a <:+: simNorm b ∨ simNorm b <:+: simNorm a
    · rw [calculate_similarity_of_substr a b heq hinf]
      norm_num
    · rw [calculate_similarity_fallback a b heq hinf]
      constructor
      · positivity
      · apply div_le_one_of_le₀
        · have hc : ((simNorm a).countP fun c => (simNorm b).contains c)
              ≤ max (simNorm a).length (simNorm b).length :=
            le_trans (List.countP_le_length _) (le_max_left _ _)
          exact_mod_cast hc
        · positivity

/-- Witness for c1_scorer_spec at a concrete input with every hypothesis
discharged. -/
theorem c1_scorer_spec_witness :
    calculate_similarity ("ab".toList) ("ba".toList) =
      (((simNorm ("ab".toList)).countP fun c => (simNorm ("ba".toList)).contains c) : ℚ)
        / ((max (simNorm ("ab".toList)).length (simNorm ("ba".toList)).length : ℕ) : ℚ) :=
  (c1_scorer_spec ("ab".toList) ("ba".toList)).2.2.2.2 (by decide) (by decide)

/-- C8 counterexample: the claim asserts that score("cat","caterpillar") and
score("caterpillar","cat") yield different values, but "cat" wholly contains
in "caterpillar", so both calls take the symmetric substring branch and
return 0.8. -/
theorem c8_counterexample :
    calculate_similarity ("cat".toList) ("caterpillar".toList)
      = calculate_similarity ("caterpillar".toList) ("cat".toList)
    ∧ calculate_similarity ("cat".toList) ("caterpillar".toList) = 8 / 10 := by
  have h1 : calculate_similarity ("cat".toList) ("caterpillar".toList) = 8 / 10 :=
    calculate_similarity_of_substr _ _ (by decide) (Or.inl (by decide))
  have h2 : calculate_similarity ("caterpillar".toList) ("cat".toList) = 8 / 10 :=
    calculate_similarity_of_substr _ _ (by decide) (Or.inr (by decide))
  exact ⟨h1.trans h2.symm, h1⟩

/-- C8 amended: the scorer is symmetric whenever one normalized string wholly
contains the other; the bag-matching fallback branch is not symmetric, the
asymmetry being exhibited by score("aab","abc") versus score("abc","aab"),
which yield 1 and 2/3 respectively. -/
theorem c8_containment_symmetry :
    (∀ a b : List Char, (simNorm a <:+: simNorm b ∨ simNorm b <:+: simNorm a) →
        calculate_similarity a b = calculate_similarity b a)
    ∧ calculate_similarity ("aab".toList) ("abc".toList)
        ≠ calculate_similarity ("abc".toList) ("aab".toList) := by
  constructor
  · intro a b h
    by_cases heq : simNorm a = simNorm b
    · rw [calculate_similarity_of_eq a b heq, calculate_similarity_of_eq b a heq.symm]
    · rw [calculate_similarity_of_substr a b heq h,
        calculate_similarity_of_substr b a (fun hc => heq hc.symm) h.symm]
  · have e1 : List.countP (fun c => (simNorm ("abc".toList)).contains c)
        (simNorm ("aab".toList)) = 3 := by decide
    have e2 : max (simNorm ("aab".toList)).length (simNorm ("abc".toList)).length = 3 := by
      decide
    have e3 : List.countP (fun c => (simNorm ("aab".toList)).contains c)
        (simNorm ("abc".toList)) = 2 := by decide
    have e4 : max (simNorm ("abc".toList)).length (simNorm ("aab".toList)).length = 3 := by
      decide
    rw [calculate_similarity_fallback _ _ (by decide) (by decide),
      calculate_similarity_fallback _ _ (by decide) (by decide), e1, e2, e3, e4]
    norm_num

/-- Witness for c8_containment_symmetry applied at a concrete containing
pair. -/
theorem c8_containment_symmetry_witness :
    calculate_similarity ("x".toList) ("xy".toList)
      = calculate_similarity ("xy".toList) ("x".toList) :=
  c8_containment_symmetry.1 ("x".toList) ("xy".toList) (Or.inl (by decide))

/-- C10: the scorer is total on empty inputs: both normalized strings empty
gives 1.0 through the equality branch; exactly one empty gives 0.8 through
the substring branch; and the dividing fallback branch is reached only when
both normalized strings are non-empty, so its denominator is positive and
division by zero is unreachable. -/
theorem c10_scorer_total (a b : List Char) :
    (simNorm a = [] → simNorm b = [] → calculate_similarity a b = 1)
    ∧ (simNorm a = [] → simNorm b ≠ [] → calculate_similarity a b = 8 / 10)
    ∧ (simNorm a ≠ [] → simNorm b = [] → calculate_similarity a b = 8 / 10)
    ∧ (simNorm a ≠ simNorm b → ¬(simNorm a <:+: simNorm b ∨ simNorm b <:+: simNorm a) →
        simNorm a ≠ [] ∧ simNorm b ≠ []
          ∧ 0 < max (simNorm a).length (simNorm b).length) := by
  refine ⟨?_, ?_, ?_, ?_⟩
  · intro ha hb
    exact calculate_similarity_of_eq a b (ha.trans hb.symm)
  · intro ha hb
    refine calculate_similarity_of_substr a b ?_ (Or.inl ?_)
    · rw [ha]
      exact fun hc => hb hc.symm
    · rw [ha]
      exact List.nil_infix
  · intro ha hb
    refine calculate_similarity_of_substr a b ?_ (Or.inr ?_)
    · rw [hb]
      exact ha
    · rw [hb]
      exact List.nil_infix
  · intro hne hinf
    have ha : simNorm a ≠ [] := by
      intro hc
      exact hinf (Or.inl (hc ▸ List.nil_infix))
    have hb : simNorm b ≠ [] := by
      intro hc
      exact hinf (Or.inr (hc ▸ List.nil_infix))
    refine ⟨ha, hb, ?_⟩
    exact lt_max_of_lt_left (List.length_pos.mpr ha)

/-- Witness for c10_scorer_total at concrete inputs with the hypotheses
discharged. -/
theorem c10_scorer_total_witness :
    calculate_similarity ([] : List Char) ("x".toList) = 8 / 10 :=
  (c10_scorer_total ([] : List Char) ("x".toList)).2.1 (by decide) (by decide)

/-- Chat id of the request group (REQUEST_GROUP_ID, src/bot.py line 22). -/
def REQUEST_GROUP_ID : Int := -1002686709725

/-- Operator allow-list (ADMIN_IDS, src/bot.py line 25). -/
def ADMIN_IDS : List Int := [6643046428]

/-- Catalog record stored under a title in MOVIES_DB: link, who added it, and
the creation timestamp (modelled as an abstract time value). -/
structure MovieInfo where
  link : List Char
  added_by : List Char
  date : Nat
deriving DecidableEq, Repr

/-- The catalog MOVIES_DB: an insertion-ordered association list, matching
Python dict iteration semantics. -/
abbrev MoviesDB := List (List Char × MovieInfo)

/-- One (title, record, score) triple appended to results by search_movie. -/
abbrev Candidate := List Char × MovieInfo × ℚ

/-- First pass of search_movie (lines 196-201): for each catalog entry, a
candidate at 1.0 when the query occurs in the title, else one at 0.9 when the
title occurs in the query. -/
def firstPass (movie_name : List Char) : MoviesDB → List Candidate
  | [] => []
  | (db_title, movie_info) :: rest =>
    if pyIn movie_name db_title then
      (db_title, movie_info, 1) :: firstPass movie_name rest
    else if pyIn db_title movie_name then
      (db_title, movie_info, 9 / 10) :: firstPass movie_name rest
    else firstPass movie_name rest

/-- Second, fuzzy pass of search_movie (lines 203-208): a candidate for each
catalog entry whose similarity with the query exceeds 0.6. -/
def secondPass (movie_name : List Char) : MoviesDB → List Candidate
  | [] => []
  | (db_title, movie_info) :: rest =>
    let similarity := calculate_similarity movie_name db_title
    if similarity > 6 / 10 then
      (db_title, movie_info, similarity) :: secondPass movie_name rest
    else secondPass movie_name rest

/-- Candidates of one search before sorting: the first pass, or the second
pass when the first produced nothing (line 204, if not results). -/
def searchResults (movie_name : List Char) (db : MoviesDB) : List Candidate :=
  let results := firstPass movie_name db
  if results.isEmpty then secondPass movie_name db else results

/-- Python results.sort with score key and reverse=True: a stable descending
sort on the score component. -/
def sortCandidates (results : List Candidate) : List Candidate :=
  results.mergeSort fun x y => decide (y.2.2 ≤ x.2.2)

/-- Message handler search_movie (lines 162-247), result part: none when the
message is ignored (wrong chat, a command, or a query shorter than 2
characters), otherwise the sorted candidate list.  The second component
counts the invocations of calculate_similarity: one per catalog entry, made
only inside the fuzzy second pass. -/
def search_movie (chat_id : Int) (text : List Char) (db : MoviesDB) :
    Option (List Candidate) × Nat :=
  if chat_id ≠ REQUEST_GROUP_ID then (none, 0) else
  let movie_name := pyLower (pyStrip text)
  if movie_name.head? = some '/' then (none, 0) else
  if movie_name.length < 2 then (none, 0) else
  let results := firstPass movie_name db
  if results.isEmpty then (some (sortCandidates (secondPass movie_name db)), db.length)
  else (some (sortCandidates results), 0)

theorem mem_firstPass_iff (q t : List Char) (i : MovieInfo) (s : ℚ) (db : MoviesDB) :
    (t, i, s) ∈ firstPass q db ↔
      (t, i) ∈ db ∧ ((q <:+: t ∧ s = 1) ∨ (¬ q <:+: t ∧ t <:+: q ∧ s = 9 / 10)) := by
  induction db with
  | nil => simp [firstPass]
  | cons hd tl ih =>
    obtain ⟨ht, hi⟩ := hd
    by_cases h1 : q <:+: ht
    · have hb1 : pyIn q ht = true := (pyIn_eq_true_iff q ht).mpr h1
      simp only [firstPass, hb1, if_true, List.mem_cons, ih, Prod.mk.injEq]
      constructor
      · rintro (⟨rfl, rfl, rfl⟩ | ⟨hmem, hC⟩)
        · exact ⟨Or.inl ⟨rfl, rfl⟩, Or.inl ⟨h1, rfl⟩⟩
        · exact ⟨Or.inr hmem, hC⟩
      · rintro ⟨⟨rfl, rfl⟩ | hmem, hC⟩
        · rcases hC with ⟨_, rfl⟩ | ⟨hqt, _, _⟩
          · exact Or.inl ⟨rfl, rfl, rfl⟩
          · exact absurd h1 hqt
        · exact Or.inr ⟨hmem, hC⟩
    · have hb1 : pyIn q ht = false := by
        simp [pyIn, h1]
      by_cases h2 : ht <:+: q
      · have hb2 : pyIn ht q = true := (pyIn_eq_true_iff ht q).mpr h2
        simp only [firstPass, hb1, hb2, if_true, Bool.false_eq_true, if_false,
          List.mem_cons, ih, Prod.mk.injEq]
        constructor
        · rintro (⟨rfl, rfl, rfl⟩ | ⟨hmem, hC⟩)
          · exact ⟨Or.inl ⟨rfl, rfl⟩, Or.inr ⟨h1, h2, rfl⟩⟩
          · exact ⟨Or.inr hmem, hC⟩
        · rintro ⟨⟨rfl, rfl⟩ | hmem, hC⟩
          · rcases hC with ⟨hqt, _⟩ | ⟨_, _, rfl⟩
            · exact absurd hqt h1
            · exact Or.inl ⟨rfl, rfl, rfl⟩
          · exact Or.inr ⟨hmem, hC⟩
      · have hb2 : pyIn ht q = false := by
          simp [pyIn, h2]
        simp only [firstPass, hb1, hb2, Bool.false_eq_true, if_false,
          List.mem_cons, ih, Prod.mk.injEq]
        constructor
        · rintro ⟨hmem, hC⟩
          exact ⟨Or.inr hmem, hC⟩
        · rintro ⟨⟨rfl, rfl⟩ | hmem, hC⟩
          · rcases hC with ⟨hqt, _⟩ | ⟨_, htq, _⟩
            · exact absurd hqt h1
            · exact absurd htq h2
          · exact ⟨hmem, hC⟩

theorem mem_secondPass_iff (q t : List Char) (i : MovieInfo) (s : ℚ) (db : MoviesDB) :
    (t, i, s) ∈ secondPass q db ↔
      (t, i) ∈ db ∧ s = calculate_similarity q t ∧ s > 6 / 10 := by
  induction db with
  | nil => simp [secondPass]
  | cons hd tl ih =>
    obtain ⟨ht, hi⟩ := hd
    by_cases h1 : calculate_similarity q ht > 6 / 10
    · simp only [secondPass, h1, if_true, List.mem_cons, ih, Prod.mk.injEq]
      constructor
      · rintro (⟨rfl, rfl, rfl⟩ | ⟨hmem, hC⟩)
        · exact ⟨Or.inl ⟨rfl, rfl⟩, rfl, h1⟩
        · exact ⟨Or.inr hmem, hC⟩
      · rintro ⟨⟨rfl, rfl⟩ | hmem, hC⟩
        · obtain ⟨rfl, _⟩ := hC
          exact Or.inl ⟨rfl, rfl, rfl⟩
        · exact Or.inr ⟨hmem, hC⟩
    · simp only [secondPass, h1, if_false, List.mem_cons, ih, Prod.mk.injEq]
      constructor
      · rintro ⟨hmem, hC⟩
        exact ⟨Or.inr hmem, hC⟩
      · rintro ⟨⟨rfl, rfl⟩ | hmem, hC⟩
        · obtain ⟨rfl, hgt⟩ := hC
          exact absurd hgt h1
        · exact ⟨hmem, hC⟩

/-- C2: for a normalized query of length at least 2, the tier pass emits, per
catalog title, one candidate at score 1.0 when the query is a substring of
the title, else one at 0.9 when the title is a substring of the query; the
fallback pass runs exactly when the tier pass produced zero candidates, and
it emits a candidate exactly when the scorer value exceeds 0.6. -/
theorem c2_matcher_passes (q : List Char) (db : MoviesDB) (hq : 2 ≤ q.length) :
    (∀ t i s, (t, i, s) ∈ firstPass q db ↔
        (t, i) ∈ db ∧ ((q <:+: t ∧ s = 1) ∨ (¬ q <:+: t ∧ t <:+: q ∧ s = 9 / 10)))
    ∧ (firstPass q db ≠ [] → searchResults q db = firstPass q db)
    ∧ (firstPass q db = [] → ∀ t i s, (t, i, s) ∈ searchResults q db ↔
        (t, i) ∈ db ∧ s = calculate_similarity q t ∧ s > 6 / 10) := by
  refine ⟨fun t i s => mem_firstPass_iff q t i s db, ?_, ?_⟩
  · intro h
    simp [searchResults, h]
  · intro h t i s
    rw [show searchResults q db = secondPass q db from by simp [searchResults, h]]
    exact mem_secondPass_iff q t i s db

/-- Witness for c2_matcher_passes: the query "aa" is a substring of the title
"aabb", so the tier pass emits that title at score 1.0. -/
theorem c2_matcher_passes_witness :
    (("aabb".toList), (⟨("l".toList), ("u".toList), 0⟩ : MovieInfo), (1 : ℚ)) ∈
      firstPass ("aa".toList) [(("aabb".toList), ⟨("l".toList), ("u".toList), 0⟩)] :=
  ((c2_matcher_passes ("aa".toList)
      [(("aabb".toList), ⟨("l".toList), ("u".toList), 0⟩)] (by decide)).1 _ _ _).mpr
    ⟨by simp, Or.inl ⟨by decide, rfl⟩⟩

/-- C9: a message whose stripped, lower-cased text is shorter than 2
characters is rejected before matching: search_movie yields no result and
the similarity scorer is invoked zero times. -/
theorem c9_short_query_rejected (chat_id : Int) (text : List Char) (db : MoviesDB)
    (h : (pyLower (pyStrip text)).length < 2) :
    search_movie chat_id text db = (none, 0) := by
  by_cases h1 : chat_id ≠ REQUEST_GROUP_ID
  · simp [search_movie, h1]
  · by_cases h2 : (pyLower (pyStrip text)).head? = some '/'
    · simp [search_movie, h1, h2]
    · simp [search_movie, h1, h2, h]

/-- Witness for c9_short_query_rejected on the one-character query "a". -/
theorem c9_short_query_rejected_witness :
    search_movie REQUEST_GROUP_ID ("a".toList) [] = (none, 0) :=
  c9_short_query_rejected REQUEST_GROUP_ID ("a".toList) [] (by decide)

/-- Conversation states of the sync dialogue (WAITING_FOR_MOVIE_NAME and
WAITING_FOR_MOVIE_LINK, src/bot.py lines 28-29). -/
inductive ConvState
  | waiting_for_movie_name
  | waiting_for_movie_link
deriving DecidableEq, Repr

/-- Replies sent by the dialogue handlers, abstracted to tags standing for
the fixed bilingual message texts of the source. -/
inductive Reply
  | permissionDenied
  | promptTitle
  | titleTooShort
  | promptLink (movie_name : List Char)
  | invalidLink
  | movieAdded (movie_name movie_link : List Char) (total : ℕ)
deriving DecidableEq, Repr

/-- Per-operator bot state: the catalog, the operator's conversation state
(none when no dialogue session exists), and the operator's user_data slot
holding the pending movie name. -/
structure BotState where
  db : MoviesDB
  conv : Option ConvState
  user_data : Option (List Char)
deriving DecidableEq, Repr

/-- Python dict assignment MOVIES_DB[k] = v: replace in place when the key
exists, else append, preserving insertion order. -/
def dbPut (k : List Char) (v : MovieInfo) (db : MoviesDB) : MoviesDB :=
  if db.any fun p => p.1 == k then db.map fun p => if p.1 == k then (k, v) else p
  else db ++ [(k, v)]

/-- Python dict lookup MOVIES_DB.get(k). -/
def dbGet (k : List Char) (db : MoviesDB) : Option MovieInfo :=
  (db.find? fun p => p.1 == k).map fun p => p.2

/-- Entry handler sync_movies (lines 93-107): an identity off the allow-list
is rejected with a permission error and nothing changes; an operator on the
list gets the title prompt and a session in the title-collection state. -/
def sync_movies (user_id : Int) (st : BotState) : BotState × Reply :=
  if user_id ∉ ADMIN_IDS then (st, Reply.permissionDenied)
  else ({ st with conv := some ConvState.waiting_for_movie_name }, Reply.promptTitle)

/-- Modelled from the spec: the dispatch of an entry command to sync_movies.
The dispatcher is library code outside src; per the spec's control flow an
entry command always routes to the entry handler, including a second entry
command from an operator already mid-dialogue. -/
def entry_command (user_id : Int) (st : BotState) : BotState × Reply :=
  sync_movies user_id st

/-- Title handler receive_movie_name (lines 109-125): strip and lower the
text; a result shorter than 2 characters re-prompts and stays in the title
state; otherwise it is stored as the pending movie name and the dialogue
moves to the link state. -/
def receive_movie_name (text : List Char) (st : BotState) : BotState × Reply :=
  let movie_name := pyLower (pyStrip text)
  if movie_name.length < 2 then
    ({ st with conv := some ConvState.waiting_for_movie_name }, Reply.titleTooShort)
  else
    ({ st with user_data := some movie_name,
               conv := some ConvState.waiting_for_movie_link },
      Reply.promptLink movie_name)

/-- Link handler receive_movie_link (lines 127-155): strip the text; when it
does not start with http:// or https://, re-prompt and stay in the link
state; otherwise store the record under the pending name, end the session
and report the new catalog size.  The pending name is always set by the time
the link state is reachable; the model reads an empty title if it is not. -/
def receive_movie_link (text username : List Char) (now : ℕ) (st : BotState) :
    BotState × Reply :=
  let movie_link := pyStrip text
  if ¬(("http://".toList).isPrefixOf movie_link
      || ("https://".toList).isPrefixOf movie_link) then
    ({ st with conv := some ConvState.waiting_for_movie_link }, Reply.invalidLink)
  else
    let movie_name := st.user_data.getD []
    let db2 := dbPut movie_name ⟨movie_link, username, now⟩ st.db
    ({ st with db := db2, conv := none },
      Reply.movieAdded movie_name movie_link db2.length)

theorem dbPut_of_not_mem (k : List Char) (v : MovieInfo) (db : MoviesDB)
    (h : ∀ p ∈ db, p.1 ≠ k) : dbPut k v db = db ++ [(k, v)] := by
  have hany : (db.any fun p => p.1 == k) = false := by
    rw [List.any_eq_false]
    intro p hp
    simpa using h p hp
  simp [dbPut, hany]

theorem length_dbPut_of_not_mem (k : List Char) (v : MovieInfo) (db : MoviesDB)
    (h : ∀ p ∈ db, p.1 ≠ k) : (dbPut k v db).length = db.length + 1 := by
  rw [dbPut_of_not_mem k v db h]
  simp

theorem dbGet_dbPut_self_of_not_mem (k : List Char) (v : MovieInfo) (db : MoviesDB)
    (h : ∀ p ∈ db, p.1 ≠ k) : dbGet k (dbPut k v db) = some v := by
  rw [dbPut_of_not_mem k v db h]
  have hnone : (db.find? fun p => p.1 == k) = none := by
    rw [List.find?_eq_none]
    intro p hp
    simpa using h p hp
  simp [dbGet, List.find?_append, hnone]

/-- C3: from no session, an authorized operator's entry command reaches the
title state; sending "dune" reaches the link state with pending title
"dune"; sending "https://example.com/d" ends the session, after which the
catalog maps "dune" to a record with that link and the catalog has grown by
exactly one entry. -/
theorem c3_dialogue_roundtrip (db : MoviesDB) (uid : Int) (username : List Char)
    (now : ℕ) (u0 : Option (List Char)) (hadmin : uid ∈ ADMIN_IDS)
    (hfresh : ∀ p ∈ db, p.1 ≠ ("dune".toList)) :
    let s1 := (sync_movies uid ⟨db, none, u0⟩).1
    let s2 := (receive_movie_name ("dune".toList) s1).1
    let s3 := (receive_movie_link ("https://example.com/d".toList) username now s2).1
    s1.conv = some ConvState.waiting_for_movie_name
    ∧ s2.conv = some ConvState.waiting_for_movie_link
    ∧ s2.user_data = some ("dune".toList)
    ∧ s3.conv = none
    ∧ dbGet ("dune".toList) s3.db
        = some ⟨("https://example.com/d".toList), username, now⟩
    ∧ s3.db.length = db.length + 1 := by
  have h1 : (sync_movies uid ⟨db, none, u0⟩).1
      = ⟨db, some ConvState.waiting_for_movie_name, u0⟩ := by
    simp [sync_movies, hadmin]
  have hname : pyLower (pyStrip ("dune".toList)) = "dune".toList := by decide
  have hlen : ¬((pyLower (pyStrip ("dune".toList))).length < 2) := by decide
  have h2 : (receive_movie_name ("dune".toList)
        (⟨db, some ConvState.waiting_for_movie_name, u0⟩ : BotState)).1
      = ⟨db, some ConvState.waiting_for_movie_link, some ("dune".toList)⟩ := by
    simp only [receive_movie_name]
    rw [if_neg hlen, hname]
  have hstrip : pyStrip ("https://example.com/d".toList)
      = "https://example.com/d".toList := by decide
  have hpre : (("http://".toList).isPrefixOf (pyStrip ("https://example.com/d".toList))
      || ("https://".toList).isPrefixOf (pyStrip ("https://example.com/d".toList)))
      = true := by decide
  have h3 : (receive_movie_link ("https://example.com/d".toList) username now
        (⟨db, some ConvState.waiting_for_movie_link, some ("dune".toList)⟩ : BotState)).1
      = ⟨dbPut ("dune".toList)
            ⟨("https://example.com/d".toList), username, now⟩ db,
          none, some ("dune".toList)⟩ := by
    simp only [receive_movie_link]
    rw [if_neg (fun hc => hc hpre), hstrip]
    rfl
  dsimp only
  rw [h1, h2, h3]
  refine ⟨rfl, rfl, rfl, rfl, ?_, ?_⟩
  · exact dbGet_dbPut_self_of_not_mem _ _ _ hfresh
  · exact length_dbPut_of_not_mem _ _ _ hfresh

/-- Witness for c3_dialogue_roundtrip from the empty catalog, with the
operator on the allow-list. -/
theorem c3_dialogue_roundtrip_witness :
    let s1 := (sync_movies 6643046428 ⟨[], none, none⟩).1
    let s2 := (receive_movie_name ("dune".toList) s1).1
    let s3 := (receive_movie_link ("https://example.com/d".toList) ("u".toList) 0 s2).1
    s1.conv = some ConvState.waiting_for_movie_name
    ∧ s2.conv = some ConvState.waiting_for_movie_link
    ∧ s2.user_data = some ("dune".toList)
    ∧ s3.conv = none
    ∧ dbGet ("dune".toList) s3.db
        = some ⟨("https://example.com/d".toList), ("u".toList), 0⟩
    ∧ s3.db.length = ([] : MoviesDB).length + 1 :=
  c3_dialogue_roundtrip [] 6643046428 ("u".toList) 0 none (by decide) (by simp)

/-- C5 counterexample: a second entry command from an authorized operator
mid-dialogue does return the session to the title state, but the stored
pending title survives in user_data instead of being overwritten or
discarded. -/
theorem c5_counterexample :
    ((entry_command 6643046428
        ⟨[], some ConvState.waiting_for_movie_link, some ("old".toList)⟩).1.user_data
      = some ("old".toList))
    ∧ ((entry_command 6643046428
        ⟨[], some ConvState.waiting_for_movie_link, some ("old".toList)⟩).1.conv
      = some ConvState.waiting_for_movie_name) := by
  constructor <;> decide

/-- C5 amended: a second entry command from an authorized operator restarts
the session to the title state and leaves catalog and user_data untouched;
the stale pending title is retained and only overwritten when the operator
next submits a valid title. -/
theorem c5_reentry_restart (st : BotState) (uid : Int) (hadmin : uid ∈ ADMIN_IDS) :
    ((entry_command uid st).1.conv = some ConvState.waiting_for_movie_name)
    ∧ ((entry_command uid st).1.user_data = st.user_data)
    ∧ ((entry_command uid st).1.db = st.db)
    ∧ (∀ t : List Char, 2 ≤ (pyLower (pyStrip t)).length →
        ((receive_movie_name t (entry_command uid st).1).1.user_data
          = some (pyLower (pyStrip t)))) := by
  refine ⟨?_, ?_, ?_, ?_⟩
  · simp [entry_command, sync_movies, hadmin]
  · simp [entry_command, sync_movies, hadmin]
  · simp [entry_command, sync_movies, hadmin]
  · intro t ht
    simp [entry_command, sync_movies, hadmin, receive_movie_name, Nat.not_lt.mpr ht]

/-- Witness for c5_reentry_restart at a mid-dialogue state with a stale
pending title. -/
theorem c5_reentry_restart_witness :
    ((entry_command 6643046428
        ⟨[], some ConvState.waiting_for_movie_link, some ("stale".toList)⟩).1.conv
      = some ConvState.waiting_for_movie_name)
    ∧ ((receive_movie_name ("dune".toList)
        (entry_command 6643046428
          ⟨[], some ConvState.waiting_for_movie_link, some ("stale".toList)⟩).1).1.user_data
      = some (pyLower (pyStrip ("dune".toList)))) :=
  ⟨(c5_reentry_restart _ _ (by decide)).1,
    (c5_reentry_restart _ _ (by decide)).2.2.2 ("dune".toList) (by decide)⟩

/-- C6 counterexample: the link handler strips the input before checking the
scheme prefix, so the raw input " https://x" (leading space, so it does not
begin with http:// or https://) is nevertheless accepted: the session ends
and the catalog gains the record. -/
theorem c6_counterexample :
    (("http://".toList).isPrefixOf (" https://x".toList) = false)
    ∧ (("https://".toList).isPrefixOf (" https://x".toList) = false)
    ∧ ((receive_movie_link (" https://x".toList) ("u".toList) 0
        ⟨[], some ConvState.waiting_for_movie_link, some ("t".toList)⟩).1.conv = none)
    ∧ ((receive_movie_link (" https://x".toList) ("u".toList) 0
        ⟨[], some ConvState.waiting_for_movie_link, some ("t".toList)⟩).1.db
      = [(("t".toList), ⟨("https://x".toList), ("u".toList), 0⟩)]) := by
  refine ⟨by decide, by decide, by decide, by decide⟩

/-- C6 amended: in the link state, a text whose whitespace-stripped form does
not begin with http:// or https:// re-prompts and leaves the state, the
pending title and the catalog unchanged. -/
theorem c6_badlink_reprompt (st : BotState) (text username : List Char) (now : ℕ)
    (hstate : st.conv = some ConvState.waiting_for_movie_link)
    (hbad : (("http://".toList).isPrefixOf (pyStrip text)
        || ("https://".toList).isPrefixOf (pyStrip text)) = false) :
    receive_movie_link text username now st = (st, Reply.invalidLink) := by
  have hst : ({ st with conv := some ConvState.waiting_for_movie_link } : BotState)
      = st := by
    cases st
    simp_all
  have hcond : ¬((("http://".toList).isPrefixOf (pyStrip text)
      || ("https://".toList).isPrefixOf (pyStrip text)) = true) := by
    rw [hbad]
    decide
  simp only [receive_movie_link]
  rw [if_pos hcond, hst]

/-- Witness for c6_badlink_reprompt on the input "ftp://x". -/
theorem c6_badlink_reprompt_witness :
    receive_movie_link ("ftp://x".toList) ("u".toList) 0
      ⟨[], some ConvState.waiting_for_movie_link, some ("t".toList)⟩
      = (⟨[], some ConvState.waiting_for_movie_link, some ("t".toList)⟩,
          Reply.invalidLink) :=
  c6_badlink_reprompt _ _ _ _ rfl (by decide)

/-- C7: an entry command from an identity off the allow-list is rejected with
the permission-denied reply, no session is created, and the whole state (the
catalog included) is unchanged. -/
theorem c7_unauthorized_rejected (uid : Int) (st : BotState) (h : uid ∉ ADMIN_IDS) :
    sync_movies uid st = (st, Reply.permissionDenied) := by
  simp [sync_movies, h]

/-- Witness for c7_unauthorized_rejected at a concrete unauthorized id. -/
theorem c7_unauthorized_rejected_witness :
    sync_movies 0 ⟨[], none, none⟩ = (⟨[], none, none⟩, Reply.permissionDenied) :=
  c7_unauthorized_rejected 0 ⟨[], none, none⟩ (by decide)

/-- Transport operations used by one search orchestration, each able to fail
with an exception of type E (the Telegram calls of the source). -/
structure SearchTransport (E : Type) where
  reply_text : Except E Unit
  sleep : Except E Unit
  edit_result : Option (List Candidate) → Except E Unit
  edit_error : E → Except E Unit

/-- Orchestration skeleton of search_movie (lines 162-247) with its exception
flow: the routing guards, then the acknowledgment send (line 186, which sits
before the try block), then inside the try block the delay, the two matching
passes with the sort, and the result render; an exception raised inside the
try block is caught and rendered through the generic error edit (line 247). -/
def search_movie_orchestrated {E : Type} (tr : SearchTransport E) (chat_id : Int)
    (text : List Char) (db : MoviesDB) : Except E Unit :=
  if chat_id ≠ REQUEST_GROUP_ID then Except.ok () else
  let movie_name := pyLower (pyStrip text)
  if movie_name.head? = some '/' then Except.ok () else
  if movie_name.length < 2 then Except.ok () else
  match tr.reply_text with
  | Except.error e => Except.error e
  | Except.ok _ =>
    let body : Except E Unit :=
      match tr.sleep with
      | Except.error e => Except.error e
      | Except.ok _ =>
        let results := searchResults movie_name db
        if results.isEmpty then tr.edit_result none
        else tr.edit_result (some (sortCandidates results))
    match body with
    | Except.ok _ => Except.ok ()
    | Except.error e => tr.edit_error e

/-- C4 counterexample: the acknowledgment send of step 3 happens before the
try block, so its failure propagates out of the orchestrator: with a
transport whose acknowledgment send fails, orchestrating a valid query
returns that failure instead of catching it. -/
theorem c4_counterexample :
    search_movie_orchestrated
      (⟨Except.error 0, Except.ok (), fun _ => Except.ok (), fun _ => Except.ok ()⟩ :
        SearchTransport ℕ)
      REQUEST_GROUP_ID ("dune".toList) [] = Except.error 0 := by
  rfl

/-- C4 amended: once the acknowledgment send has succeeded, a failure raised
inside the try block (the delay, the matching or the result render) is
caught and rendered through the generic error edit, and nothing escapes the
orchestrator as long as that error edit itself succeeds; a failure of the
acknowledgment send itself is not caught. -/
theorem c4_errors_caught {E : Type} (tr : SearchTransport E) (chat_id : Int)
    (text : List Char) (db : MoviesDB) (hack : tr.reply_text = Except.ok ()) :
    ((∀ e : E, tr.edit_error e = Except.ok ()) →
      ∀ e : E, search_movie_orchestrated tr chat_id text db ≠ Except.error e)
    ∧ (∀ e : E, tr.sleep = Except.error e → chat_id = REQUEST_GROUP_ID →
        (pyLower (pyStrip text)).head? ≠ some '/' →
        2 ≤ (pyLower (pyStrip text)).length →
        search_movie_orchestrated tr chat_id text db = tr.edit_error e) := by
  constructor
  · intro herr e
    by_cases h1 : chat_id ≠ REQUEST_GROUP_ID
    · simp [search_movie_orchestrated, h1]
    · by_cases h2 : (pyLower (pyStrip text)).head? = some '/'
      · simp [search_movie_orchestrated, h1, h2]
      · by_cases h3 : (pyLower (pyStrip text)).length < 2
        · simp [search_movie_orchestrated, h1, h2, h3]
        · cases hs : tr.sleep with
          | error e2 =>
            simp [search_movie_orchestrated, h1, h2, h3, hack, hs, herr e2]
          | ok u =>
            cases u
            by_cases hres : (searchResults (pyLower (pyStrip text)) db).isEmpty
            · cases her : tr.edit_result none with
              | error e3 =>
                simp [search_movie_orchestrated, h1, h2, h3, hack, hs, hres, her,
                  herr e3]
              | ok u2 =>
                cases u2
                simp [search_movie_orchestrated, h1, h2, h3, hack, hs, hres, her]
            · cases her : tr.edit_result
                  (some (sortCandidates (searchResults (pyLower (pyStrip text)) db))) with
              | error e3 =>
                simp [search_movie_orchestrated, h1, h2, h3, hack, hs, hres, her,
                  herr e3]
              | ok u2 =>
                cases u2
                simp [search_movie_orchestrated, h1, h2, h3, hack, hs, hres, her]
  · intro e hs h1 h2 h3
    subst h1
    simp [search_movie_orchestrated, h2, Nat.not_lt.mpr h3, hack, hs]

/-- Witness for c4_errors_caught: with a transport whose operations all
succeed, the orchestration of a valid query never returns a failure. -/
theorem c4_errors_caught_witness :
    search_movie_orchestrated
      (⟨Except.ok (), Except.ok (), fun _ => Except.ok (), fun _ => Except.ok ()⟩ :
        SearchTransport ℕ)
      REQUEST_GROUP_ID ("dune".toList) [] ≠ Except.error 0 :=
  (c4_errors_caught
      (⟨Except.ok (), Except.ok (), fun _ => Except.ok (), fun _ => Except.ok ()⟩ :
        SearchTransport ℕ)
      REQUEST_GROUP_ID ("dune".toList) [] rfl).1 (fun _ => rfl) 0

end MVBD
